import Mathlib

/-!
Verification of the EyeWear IPC / mode-routing layer.

Shallow embedding of the Python sources:
  - `common.py` : `CallSignal`, `OCRSignal`, class `IPC` (pidfile registry);
  - `earbud_input.py` : mode machine (`mode_mapping`, `fn_mapping`, the action
    functions and the `ocr_queue_feedback` handler);
  - `call_client.py` : action-code constants and `WebRTCClient.signal_handler`;
  - `ocr_process.py` : `OCRClient.signal_handler` and the actions it invokes.

Shared-memory mailboxes are 4-byte buffers; `struct.pack('i', v)` /
`struct.unpack('i', b)` are modelled byte-for-byte (little-endian two's
complement, the native layout on the target).
-/

namespace EyeWear

/-- `common.py` — `class CallSignal(Enum)` with `auto()` members. -/
inductive CallSignal where
  | START_CALL
  | END_CALL
  | MUTE_CALL
deriving DecidableEq, Repr

/-- Python `enum.auto()` numbers members from 1 in declaration order. -/
def CallSignal.value : CallSignal → Int
  | .START_CALL => 1
  | .END_CALL => 2
  | .MUTE_CALL => 3

/-- `common.py` — `class OCRSignal(Enum)` with `auto()` members. -/
inductive OCRSignal where
  | START_OCR
  | STOP_OCR
  | PAUSE_OCR
  | NEW_PICTURE
  | STOP_OCR_NOW
deriving DecidableEq, Repr

/-- Python `enum.auto()` numbers members from 1 in declaration order. -/
def OCRSignal.value : OCRSignal → Int
  | .START_OCR => 1
  | .STOP_OCR => 2
  | .PAUSE_OCR => 3
  | .NEW_PICTURE => 4
  | .STOP_OCR_NOW => 5

/-- `struct.pack('i', v)`: the 4-byte little-endian two's-complement image of
`v`, as the byte values of the packed buffer.  (`'i'` is a 4-byte signed int in
native byte order; the target is little-endian.) -/
def pack_i (v : Int) : List Nat :=
  let u := (v % 4294967296).toNat
  [u % 256, u / 256 % 256, u / 65536 % 256, u / 16777216 % 256]

/-- `struct.unpack('i', b)[0]`: decode a 4-byte buffer as a little-endian
two's-complement signed 32-bit integer. (Inputs other than 4 bytes raise in
Python; they never occur on the fixed 4-byte mailboxes, modelled as 0.) -/
def unpack_i : List Nat → Int
  | [b0, b1, b2, b3] =>
    let u := b0 + 256 * b1 + 65536 * b2 + 16777216 * b3
    if u < 2147483648 then (u : Int) else (u : Int) - 4294967296
  | _ => 0

/-- A mailbox write, `shm.buf[:4] = struct.pack('i', v)`, replaces the whole
4-byte buffer. -/
def Mailbox.write (v : Int) : List Nat := pack_i v

/-- A mailbox read, `struct.unpack('i', shm.buf[:4])[0]`. -/
def Mailbox.read (buf : List Nat) : Int := unpack_i buf

/-- C6: for every 32-bit signed integer value `v`, packing `v` into the 4-byte
shared buffer and immediately unpacking it returns exactly `v`. -/
theorem mailbox_write_read_roundtrip (v : Int)
    (hlo : -2147483648 ≤ v) (hhi : v < 2147483648) :
    Mailbox.read (Mailbox.write v) = v := by
  simp only [Mailbox.read, Mailbox.write, pack_i, unpack_i]
  have hnn : (0 : Int) ≤ v % 4294967296 := Int.emod_nonneg v (by norm_num)
  have hcast : (((v % 4294967296).toNat : Int)) = v % 4294967296 :=
    Int.toNat_of_nonneg hnn
  split <;> omega

/-- Witness for C6 at the concrete value `v = -12345`. -/
theorem mailbox_write_read_roundtrip_witness :
    -2147483648 ≤ (-12345 : Int) ∧ (-12345 : Int) < 2147483648 ∧
      Mailbox.read (Mailbox.write (-12345)) = -12345 :=
  ⟨by decide, by decide, mailbox_write_read_roundtrip (-12345) (by decide) (by decide)⟩

/-- The two general-purpose asynchronous POSIX signals used by the layer. -/
inductive PosixSignal where
  | SIGUSR1
  | SIGUSR2
deriving DecidableEq, Repr

/-- `earbud_input.py` — `mode_of_operation` can be IDLE, CALL, OCR. -/
inductive Mode where
  | IDLE
  | CALL
  | OCR
deriving DecidableEq, Repr

/-- The classified press events produced by `button_map` in `earbud_input.py`. -/
inductive PressEvent where
  | SINGLE_TAP
  | DOUBLE_TAP
  | LONG_PRESS
deriving DecidableEq, Repr

/-- The mutable process state of `earbud_input.py`: the mode global, the
`muted` global, the four attached 4-byte shared-memory buffers, and a log of
the `ipc.send_signal` calls made so far. -/
structure EarbudState where
  mode : Mode
  muted : Bool
  ocr_shm : List Nat
  call_shm : List Nat
  oqc_shm : List Nat
  oqi_shm : List Nat
  sent : List (String × PosixSignal)
deriving DecidableEq, Repr

/-- `earbud_input.py` — `mode_mapping[mode].get(button, None)`. -/
def mode_mapping : Mode → PressEvent → Option String
  | .IDLE, .DOUBLE_TAP => some "roc"
  | .IDLE, .LONG_PRESS => some "cc"
  | .IDLE, .SINGLE_TAP => some "IGNORE"
  | .CALL, .DOUBLE_TAP => some "h"
  | .CALL, .LONG_PRESS => some "IGNORE"
  | .CALL, .SINGLE_TAP => some "m"
  | .OCR, .DOUBLE_TAP => some "tn"
  | .OCR, .LONG_PRESS => some "so"
  | .OCR, .SINGLE_TAP => some "po"

/-- `earbud_input.py` — `run_ocr_client`: `setMode("OCR")`, write `START_OCR`
to the `ocr_signal` mailbox, `ipc.send_signal("ocr_process", SIGUSR1)`. -/
def run_ocr_client (s : EarbudState) : EarbudState :=
  { s with mode := .OCR,
           ocr_shm := Mailbox.write OCRSignal.START_OCR.value,
           sent := s.sent ++ [("ocr_process", .SIGUSR1)] }

/-- `earbud_input.py` — `call_client`: `setMode("CALL")`, `muted = False`,
write `START_CALL` to `call_signal`, signal `call_client`. -/
def call_client (s : EarbudState) : EarbudState :=
  { s with mode := .CALL,
           muted := false,
           call_shm := Mailbox.write CallSignal.START_CALL.value,
           sent := s.sent ++ [("call_client", .SIGUSR1)] }

/-- `earbud_input.py` — `hangup`: write `END_CALL` to `call_signal`, signal
`call_client`, `setMode("IDLE")`. -/
def hangup (s : EarbudState) : EarbudState :=
  { s with mode := .IDLE,
           call_shm := Mailbox.write CallSignal.END_CALL.value,
           sent := s.sent ++ [("call_client", .SIGUSR1)] }

/-- `earbud_input.py` — `mute_unmute`: flip `muted`, write `MUTE_CALL` to
`call_signal`, signal `call_client`. -/
def mute_unmute (s : EarbudState) : EarbudState :=
  { s with muted := !s.muted,
           call_shm := Mailbox.write CallSignal.MUTE_CALL.value,
           sent := s.sent ++ [("call_client", .SIGUSR1)] }

/-- `earbud_input.py` — `take_new_photo_and_ocr_client_to_queue`: write
`NEW_PICTURE` to `ocr_signal`, signal `ocr_process`. -/
def take_new_photo_and_ocr_client_to_queue (s : EarbudState) : EarbudState :=
  { s with ocr_shm := Mailbox.write OCRSignal.NEW_PICTURE.value,
           sent := s.sent ++ [("ocr_process", .SIGUSR1)] }

/-- `earbud_input.py` — `stop_ocr`: write `STOP_OCR` to `ocr_signal`, signal
`ocr_process`. -/
def stop_ocr (s : EarbudState) : EarbudState :=
  { s with ocr_shm := Mailbox.write OCRSignal.STOP_OCR.value,
           sent := s.sent ++ [("ocr_process", .SIGUSR1)] }

/-- `earbud_input.py` — `pause_ocr`: write `PAUSE_OCR` to `ocr_signal`, signal
`ocr_process`. -/
def pause_ocr (s : EarbudState) : EarbudState :=
  { s with ocr_shm := Mailbox.write OCRSignal.PAUSE_OCR.value,
           sent := s.sent ++ [("ocr_process", .SIGUSR1)] }

/-- `earbud_input.py` — the `fn_mapping` dict.  The outer `Option` is dict
lookup (`none` = `KeyError`); the inner `Option` is the stored value, where
`fn_mapping["IGNORE"] = None` stores Python `None`. -/
def fn_mapping : Option String → Option (Option (EarbudState → EarbudState))
  | some "roc" => some (some run_ocr_client)
  | some "cc" => some (some call_client)
  | some "so" => some (some stop_ocr)
  | some "h" => some (some hangup)
  | some "m" => some (some mute_unmute)
  | some "tn" => some (some take_new_photo_and_ocr_client_to_queue)
  | some "po" => some (some pause_ocr)
  | some "IGNORE" => some none
  | _ => none

/-- `earbud_input.py` — the dispatch step of `read_button_events`:
`action = fn_mapping[mode_mapping[getMode()].get(button, None)]` followed by
`if action: action()`.  Returns `none` on an unhandled case (`KeyError`),
`some s` when the looked-up action is `None` (a no-op), and the updated state
otherwise. -/
def dispatch (s : EarbudState) (button : PressEvent) : Option EarbudState :=
  match fn_mapping (mode_mapping s.mode button) with
  | none => none
  | some none => some s
  | some (some action) => some (action s)

/-- `earbud_input.py` — the body of `ocr_queue_feedback`: read the
`ocr_queue_count` mailbox; on 0, `setMode("IDLE")`, write `STOP_OCR_NOW` to
`ocr_signal` and signal `ocr_process`; otherwise only read and log the
`ocr_queue_images` mailbox.  Note the Python function is declared with zero
parameters (`def ocr_queue_feedback():`, line 157) although it is registered
as a signal handler — see `sigusr1_deliver_ocr_queue_feedback` for the
invocation path. -/
def ocr_queue_feedback (s : EarbudState) : EarbudState :=
  let count := Mailbox.read s.oqc_shm
  if count = 0 then
    { s with mode := .IDLE,
             ocr_shm := Mailbox.write OCRSignal.STOP_OCR_NOW.value,
             sent := s.sent ++ [("ocr_process", .SIGUSR1)] }
  else s

/-- C1: from mode IDLE, DOUBLE_TAP moves the mode to OCR and writes StartOcr
to the `ocr_signal` mailbox; LONG_PRESS moves the mode to CALL and writes
StartCall to the `call_signal` mailbox; SINGLE_TAP leaves the mode IDLE and
writes no mailbox (the state is unchanged). -/
theorem dispatch_from_idle (s : EarbudState) (h : s.mode = .IDLE) :
    dispatch s .DOUBLE_TAP =
      some { s with mode := .OCR,
                    ocr_shm := Mailbox.write OCRSignal.START_OCR.value,
                    sent := s.sent ++ [("ocr_process", .SIGUSR1)] } ∧
    dispatch s .LONG_PRESS =
      some { s with mode := .CALL,
                    muted := false,
                    call_shm := Mailbox.write CallSignal.START_CALL.value,
                    sent := s.sent ++ [("call_client", .SIGUSR1)] } ∧
    dispatch s .SINGLE_TAP = some s := by
  rcases s with ⟨m, mu, o, c, q, i, l⟩
  cases h
  exact ⟨rfl, rfl, rfl⟩

/-- A concrete earbud-input state in mode IDLE with zeroed mailboxes. -/
def demoEarbud : EarbudState :=
  { mode := .IDLE, muted := false,
    ocr_shm := Mailbox.write 0, call_shm := Mailbox.write 0,
    oqc_shm := Mailbox.write 0, oqi_shm := Mailbox.write 0, sent := [] }

/-- Witness for C1 at the concrete state `demoEarbud`. -/
theorem dispatch_from_idle_witness :
    demoEarbud.mode = .IDLE ∧
    (dispatch demoEarbud .DOUBLE_TAP =
      some { demoEarbud with
             mode := .OCR,
             ocr_shm := Mailbox.write OCRSignal.START_OCR.value,
             sent := demoEarbud.sent ++ [("ocr_process", .SIGUSR1)] } ∧
    dispatch demoEarbud .LONG_PRESS =
      some { demoEarbud with
             mode := .CALL,
             muted := false,
             call_shm := Mailbox.write CallSignal.START_CALL.value,
             sent := demoEarbud.sent ++ [("call_client", .SIGUSR1)] } ∧
    dispatch demoEarbud .SINGLE_TAP = some demoEarbud) :=
  ⟨rfl, dispatch_from_idle demoEarbud rfl⟩

/-- C2: for every mode and every classified press event, dispatch resolves to
a defined action or to ignore — never an unhandled case (`KeyError`). -/
theorem dispatch_total (s : EarbudState) (button : PressEvent) :
    (dispatch s button).isSome = true := by
  rcases s with ⟨m, mu, o, c, q, i, l⟩
  cases m <;> cases button <;> rfl

/-- C3: from mode IDLE, the event sequence LongPress, SingleTap, DoubleTap
gives: after LongPress, mode CALL and `call_signal` holds StartCall; after
SingleTap, mode still CALL and `call_signal` holds ToggleMute; after
DoubleTap, mode IDLE and `call_signal` holds EndCall. -/
theorem dispatch_call_scenario (s : EarbudState) (h : s.mode = .IDLE) :
    ∃ s1 s2 s3,
      dispatch s .LONG_PRESS = some s1 ∧ s1.mode = .CALL ∧
        Mailbox.read s1.call_shm = CallSignal.START_CALL.value ∧
      dispatch s1 .SINGLE_TAP = some s2 ∧ s2.mode = .CALL ∧
        Mailbox.read s2.call_shm = CallSignal.MUTE_CALL.value ∧
      dispatch s2 .DOUBLE_TAP = some s3 ∧ s3.mode = .IDLE ∧
        Mailbox.read s3.call_shm = CallSignal.END_CALL.value := by
  rcases s with ⟨m, mu, o, c, q, i, l⟩
  cases h
  exact ⟨_, _, _, rfl, rfl, rfl, rfl, rfl, rfl, rfl, rfl, rfl⟩

/-- Witness for C3 at the concrete state `demoEarbud`. -/
theorem dispatch_call_scenario_witness :
    demoEarbud.mode = .IDLE ∧
    (∃ s1 s2 s3,
      dispatch demoEarbud .LONG_PRESS = some s1 ∧ s1.mode = .CALL ∧
        Mailbox.read s1.call_shm = CallSignal.START_CALL.value ∧
      dispatch s1 .SINGLE_TAP = some s2 ∧ s2.mode = .CALL ∧
        Mailbox.read s2.call_shm = CallSignal.MUTE_CALL.value ∧
      dispatch s2 .DOUBLE_TAP = some s3 ∧ s3.mode = .IDLE ∧
        Mailbox.read s3.call_shm = CallSignal.END_CALL.value) :=
  ⟨rfl, dispatch_call_scenario demoEarbud rfl⟩

/-- What the body of `ocr_queue_feedback` does whenever it executes with the
`ocr_queue_count` mailbox reading 0 — the transition the spec's queue-depth
scenario describes, showing the body implements exactly the intended
shutdown: mode back to IDLE, StopOcrNow written to `ocr_signal`, SIGUSR1
raised at `ocr_process`. -/
theorem ocr_queue_feedback_body_stops (s : EarbudState)
    (hcount : Mailbox.read s.oqc_shm = 0) :
    (ocr_queue_feedback s).mode = .IDLE ∧
    (ocr_queue_feedback s).ocr_shm = Mailbox.write OCRSignal.STOP_OCR_NOW.value ∧
    (ocr_queue_feedback s).sent = s.sent ++ [("ocr_process", .SIGUSR1)] := by
  simp only [ocr_queue_feedback, hcount, if_pos rfl]
  exact ⟨rfl, rfl, rfl⟩

/-- The number of positional parameters the Python function
`ocr_queue_feedback` declares: `def ocr_queue_feedback():`
(`earbud_input.py` line 157). -/
def ocr_queue_feedback_params : Nat := 0

/-- The Python interpreter invokes an installed signal handler with two
positional arguments, `handler(signum, frame)`. -/
def PY_SIGNAL_HANDLER_ARGS : Nat := 2

/-- Calling a Python function object: if the number of positional arguments
supplied does not match the number of parameters the function declares, the
interpreter raises `TypeError` before the body runs; otherwise the body's
state transition is applied. -/
def call_python (params args : Nat) (body : EarbudState → EarbudState)
    (s : EarbudState) : Except String EarbudState :=
  if args = params then .ok (body s) else .error "TypeError"

/-- An asynchronous SIGUSR1 delivery to `earbud_input`: the function
registered by `signal.signal(signal.SIGUSR1, ocr_queue_feedback)`
(`earbud_input.py` line 281) is invoked with `(signum, frame)`. -/
def sigusr1_deliver_ocr_queue_feedback (s : EarbudState) :
    Except String EarbudState :=
  call_python ocr_queue_feedback_params PY_SIGNAL_HANDLER_ARGS
    ocr_queue_feedback s

/-- C4 (code bug): the queue-depth feedback handler is registered on SIGUSR1
but declared with zero parameters, while signal handlers are invoked with
`(signum, frame)`; every asynchronous delivery therefore raises `TypeError`
before the body runs.  In particular, in mode OCR with the
`ocr_queue_count` mailbox at 0, the claimed transition (mode back to IDLE,
StopOcrNow written) never happens on the asynchronous path — the exception
propagates out of the handler instead. -/
theorem sigusr1_delivery_raises_type_error (s : EarbudState) :
    sigusr1_deliver_ocr_queue_feedback s = .error "TypeError" := rfl

/-- A concrete earbud-input state in mode OCR whose `ocr_queue_count` mailbox
reads 0 — the failing input for C4: delivering SIGUSR1 here raises instead of
performing the claimed transition, although the body alone would perform
it. -/
def demoEarbudOcr : EarbudState :=
  { demoEarbud with mode := .OCR }

/-- The failing input for C4, evaluated: at `demoEarbudOcr` (mode OCR, queue
count 0) the asynchronous delivery raises `TypeError`, while the handler
body, had it been invoked, would have performed the claimed transition. -/
theorem sigusr1_delivery_vs_body_at_failing_input :
    demoEarbudOcr.mode = .OCR ∧ Mailbox.read demoEarbudOcr.oqc_shm = 0 ∧
    sigusr1_deliver_ocr_queue_feedback demoEarbudOcr = .error "TypeError" ∧
    (ocr_queue_feedback demoEarbudOcr).mode = .IDLE ∧
    (ocr_queue_feedback demoEarbudOcr).ocr_shm =
      Mailbox.write OCRSignal.STOP_OCR_NOW.value :=
  ⟨rfl, by decide, rfl, by decide, by decide⟩

/-- The pidfile registry of `common.py`: maps a registry name to the pid
stored in `<pid_file_location>/<name>.pid` (`none` = no such file). -/
def Registry : Type := String → Option Nat

/-- Outcome of `IPC.__init__`: either the process proceeds with the updated
registry, or it calls `exit(code)` leaving the registry as found. -/
inductive InitResult where
  | ok (registry : Registry) : InitResult
  | exit (code : Nat) (registry : Registry) : InitResult

/-- `common.py` — `IPC.__init__`: if the pidfile for `filename` does not
exist, `create_pidfile` writes the caller's pid into it; otherwise the
constructor logs and calls `exit(1)` without touching the file. -/
def IPC.init (registry : Registry) (filename : String) (pid : Nat) : InitResult :=
  match registry filename with
  | none => .ok (fun n => if n = filename then some pid else registry n)
  | some _ => .exit 1 registry

/-- C5: a second registration of a name whose entry is live fails: the second
process exits with a non-zero status, and the first process's entry (file and
content) is unchanged by the failed attempt. -/
theorem ipc_init_duplicate_fails (registry : Registry) (filename : String)
    (pid1 pid2 : Nat) (hlive : registry filename = some pid1) :
    ∃ code registry2, IPC.init registry filename pid2 = .exit code registry2 ∧
      code ≠ 0 ∧ registry2 filename = some pid1 ∧
      ∀ n, registry2 n = registry n := by
  refine ⟨1, registry, ?_, by decide, hlive, fun n => rfl⟩
  simp only [IPC.init, hlive]

/-- A registry holding a single live entry `earbud_input 41`. -/
def demoRegistry : Registry :=
  fun n => if n = "earbud_input" then some 41 else none

/-- Witness for C5 at the concrete registry `demoRegistry`. -/
theorem ipc_init_duplicate_fails_witness :
    demoRegistry "earbud_input" = some 41 ∧
    (∃ code registry2,
      IPC.init demoRegistry "earbud_input" 55 = .exit code registry2 ∧
      code ≠ 0 ∧ registry2 "earbud_input" = some 41 ∧
      ∀ n, registry2 n = demoRegistry n) :=
  ⟨rfl, ipc_init_duplicate_fails demoRegistry "earbud_input" 41 55 rfl⟩

/-- `common.py` — `IPC.read_pid`, against a trace of pidfile states: at poll
step `t` the file for the looked-up name is `trace t` — `none` = absent,
`some parsed` = present, where `parsed` is what `int(f.read().strip())`
yields (`none` on `ValueError`, in which case the code returns Python
`None`).  An absent file sends the code into its
`while not os.path.exists: time.sleep(1)` loop — one recursive step per
1-second poll, then the re-read via the tail call.  `fuel` bounds the number
of polls modelled; it never runs out once the entry has appeared within
`fuel` steps. -/
def IPC.read_pid (trace : Nat → Option (Option Int)) (t : Nat) : Nat → Option Int
  | 0 => none
  | fuel + 1 =>
    match trace t with
    | some parsed => parsed
    | none => IPC.read_pid trace (t + 1) fuel

/-- Polling lemma for C8: if the entry is absent for the first `k` polls after
`t` and present at poll `t + k`, `read_pid` started at `t` returns what that
entry parses to. -/
theorem read_pid_polls_until_present (trace : Nat → Option (Option Int))
    (parsed : Option Int) : ∀ k t, (∀ m, m < k → trace (t + m) = none) →
    trace (t + k) = some parsed →
    IPC.read_pid trace t (k + 1) = parsed := by
  intro k
  induction k with
  | zero =>
    intro t _ hhit
    simp only [IPC.read_pid, Nat.add_zero] at hhit ⊢
    rw [hhit]
  | succ k ih =>
    intro t habsent hhit
    have h0 : trace t = none := by
      have := habsent 0 (Nat.succ_pos k)
      simpa using this
    simp only [IPC.read_pid, h0]
    refine ih (t + 1) (fun m hm => ?_) ?_
    · have h1 := habsent (m + 1) (Nat.succ_lt_succ hm)
      have e : t + (m + 1) = t + 1 + m := by omega
      rwa [e] at h1
    · have e : t + (k + 1) = t + 1 + k := by omega
      rwa [e] at hhit

/-- C8: a lookup issued before the name is registered does not fail: it polls
once per fixed 1-second interval while the entry is absent, and as soon as
the entry exists (holding the decimal pid) it terminates and returns that
pid. -/
theorem read_pid_blocks_then_returns (trace : Nat → Option (Option Int))
    (n : Nat) (pid : Int)
    (habsent : ∀ m, m < n → trace m = none)
    (hentry : trace n = some (some pid)) :
    IPC.read_pid trace 0 (n + 1) = some pid := by
  exact read_pid_polls_until_present trace (some pid) n 0
    (fun m hm => by simpa using habsent m hm) (by simpa using hentry)

/-- A trace on which the pidfile appears, holding pid 41, at poll step 2. -/
def demoTrace : Nat → Option (Option Int) :=
  fun t => if t < 2 then none else some (some 41)

/-- Witness for C8 at the concrete trace `demoTrace`. -/
theorem read_pid_blocks_then_returns_witness :
    (∀ m, m < 2 → demoTrace m = none) ∧ demoTrace 2 = some (some 41) ∧
    IPC.read_pid demoTrace 0 3 = some 41 :=
  ⟨fun m hm => by simp [demoTrace, hm], rfl,
    read_pid_blocks_then_returns demoTrace 2 41
      (fun m hm => by simp [demoTrace, hm]) rfl⟩

/-- `call_client.py` — `ACTION_REQUEST_CALL = 1`. -/
def ACTION_REQUEST_CALL : Int := 1

/-- `call_client.py` — `ACTION_STOP_CALL = 2`. -/
def ACTION_STOP_CALL : Int := 2

/-- `call_client.py` — `ACTION_MUTE_UNMUTE = 3`. -/
def ACTION_MUTE_UNMUTE : Int := 3

/-- The three coroutines `WebRTCClient.signal_handler` can schedule on the
asyncio loop via `run_coroutine_threadsafe`. -/
inductive CallAction where
  | request_call
  | stop_call
  | toggle_mute
deriving DecidableEq, Repr

/-- The branch selection of `WebRTCClient.signal_handler` in `call_client.py`
(lines 172–180): which call action a received code is dispatched to. -/
def call_action_of_code (code : Int) : Option CallAction :=
  if code = ACTION_REQUEST_CALL then some .request_call
  else if code = ACTION_STOP_CALL then some .stop_call
  else if code = ACTION_MUTE_UNMUTE then some .toggle_mute
  else none

/-- C7: the call-channel codes written by the sender (`CallSignal` in
`common.py`, used by `earbud_input.py`) and the constants decoded by the
receiver (`call_client.py`) agree and match the published encoding 1/2/3, so
each sent call action selects the matching branch at the receiver; and the
five OCR-channel codes are pairwise distinct small integers. -/
theorem action_codes_agree :
    CallSignal.START_CALL.value = ACTION_REQUEST_CALL ∧
    CallSignal.END_CALL.value = ACTION_STOP_CALL ∧
    CallSignal.MUTE_CALL.value = ACTION_MUTE_UNMUTE ∧
    CallSignal.START_CALL.value = 1 ∧
    CallSignal.END_CALL.value = 2 ∧
    CallSignal.MUTE_CALL.value = 3 ∧
    call_action_of_code CallSignal.START_CALL.value = some .request_call ∧
    call_action_of_code CallSignal.END_CALL.value = some .stop_call ∧
    call_action_of_code CallSignal.MUTE_CALL.value = some .toggle_mute ∧
    List.Pairwise (fun a b => a ≠ b)
      ([OCRSignal.START_OCR, OCRSignal.STOP_OCR, OCRSignal.PAUSE_OCR,
        OCRSignal.NEW_PICTURE, OCRSignal.STOP_OCR_NOW].map OCRSignal.value) := by
  decide

/-- The mutable state of `WebRTCClient` in `call_client.py` as the signal
handler sees it: the `shm` global (`none` guard), the `call_signal` buffer,
`self.loop`, `self.in_call`, `self.muted`, and the list of coroutines
scheduled so far via `run_coroutine_threadsafe`. -/
structure WebRTCClientState where
  shm_attached : Bool
  call_shm : List Nat
  loop_set : Bool
  in_call : Bool
  muted : Bool
  scheduled : List CallAction
deriving DecidableEq, Repr

/-- `call_client.py` — `WebRTCClient.signal_handler`: `if not shm: return`;
unpack the action code from the `call_signal` buffer; on 1/2/3 schedule
`request_call` / `stop_call` / `toggle_mute` when `self.loop` is set and
`self.in_call` permits; finally `struct.pack_into('i', shm.buf, 0, 0)`
overwrites the mailbox with 0. -/
def WebRTCClient.signal_handler (s : WebRTCClientState) : WebRTCClientState :=
  if s.shm_attached = false then s
  else
    let action_code := Mailbox.read s.call_shm
    let scheduled :=
      if action_code = ACTION_REQUEST_CALL then
        if s.loop_set && !s.in_call then s.scheduled ++ [.request_call]
        else s.scheduled
      else if action_code = ACTION_STOP_CALL then
        if s.loop_set && s.in_call then s.scheduled ++ [.stop_call]
        else s.scheduled
      else if action_code = ACTION_MUTE_UNMUTE then
        if s.loop_set && s.in_call then s.scheduled ++ [.toggle_mute]
        else s.scheduled
      else s.scheduled
    { s with call_shm := Mailbox.write 0, scheduled := scheduled }

/-- C9: with the shared memory attached, the handler leaves the `call_signal`
mailbox holding 0, so a second signal delivered without an intervening write
reads 0 and schedules none of request/stop/mute; and the handler itself never
touches `in_call`, `muted`, the loop or the shm attachment. -/
theorem webrtc_handler_clears_mailbox (s : WebRTCClientState)
    (hshm : s.shm_attached = true) :
    (WebRTCClient.signal_handler s).call_shm = Mailbox.write 0 ∧
    Mailbox.read (WebRTCClient.signal_handler s).call_shm = 0 ∧
    (WebRTCClient.signal_handler (WebRTCClient.signal_handler s)).scheduled =
      (WebRTCClient.signal_handler s).scheduled ∧
    (WebRTCClient.signal_handler s).in_call = s.in_call ∧
    (WebRTCClient.signal_handler s).muted = s.muted ∧
    (WebRTCClient.signal_handler s).loop_set = s.loop_set ∧
    (WebRTCClient.signal_handler s).shm_attached = s.shm_attached := by
  rcases s with ⟨shm, buf, lo, ic, mu, sch⟩
  cases hshm
  refine ⟨rfl, rfl, ?_, rfl, rfl, rfl, rfl⟩
  simp only [WebRTCClient.signal_handler]
  norm_num [Mailbox.read, Mailbox.write, pack_i, unpack_i,
    ACTION_REQUEST_CALL, ACTION_STOP_CALL, ACTION_MUTE_UNMUTE]

/-- A concrete call-client state: attached shm, a pending `START_CALL` code,
loop running, not in a call. -/
def demoWebRTC : WebRTCClientState :=
  { shm_attached := true, call_shm := Mailbox.write CallSignal.START_CALL.value,
    loop_set := true, in_call := false, muted := false, scheduled := [] }

/-- Witness for C9 at the concrete state `demoWebRTC`. -/
theorem webrtc_handler_clears_mailbox_witness :
    demoWebRTC.shm_attached = true ∧
    ((WebRTCClient.signal_handler demoWebRTC).call_shm = Mailbox.write 0 ∧
     Mailbox.read (WebRTCClient.signal_handler demoWebRTC).call_shm = 0 ∧
     (WebRTCClient.signal_handler
        (WebRTCClient.signal_handler demoWebRTC)).scheduled =
       (WebRTCClient.signal_handler demoWebRTC).scheduled ∧
     (WebRTCClient.signal_handler demoWebRTC).in_call = demoWebRTC.in_call ∧
     (WebRTCClient.signal_handler demoWebRTC).muted = demoWebRTC.muted ∧
     (WebRTCClient.signal_handler demoWebRTC).loop_set = demoWebRTC.loop_set ∧
     (WebRTCClient.signal_handler demoWebRTC).shm_attached =
       demoWebRTC.shm_attached) :=
  ⟨rfl, webrtc_handler_clears_mailbox demoWebRTC rfl⟩

/-- The mutable state of `OCRClient` in `ocr_process.py` as its signal
handler sees it: the `ocr_signal` buffer, `self.running`, `self.paused`, the
image and audio queues, and the timestamp `datetime.now()` would stamp on the
next capture. -/
structure OCRClientState where
  ocr_shm : List Nat
  running : Bool
  paused : Bool
  image_queue : List String
  audio_queue : List String
  timestamp : String
deriving DecidableEq, Repr

/-- `ocr_process.py` — `OCRClient.capture_image`: shoot via `rpicam-still`
and enqueue the captured image path on `self.image_queue`. -/
def OCRClient.capture_image (s : OCRClientState) : OCRClientState :=
  { s with image_queue := s.image_queue ++
      ["/home/pi/EyeWear/captured_images/image_" ++ s.timestamp ++ ".jpg"] }

/-- `ocr_process.py` — `OCRClient.start`: `if self.running: return`, else log
and `self.capture_image()` (the initial capture). -/
def OCRClient.start (s : OCRClientState) : OCRClientState :=
  if s.running then s else OCRClient.capture_image s

/-- `ocr_process.py` — `OCRClient.stop`: `self.running = False` (then joins
worker threads and stops the player, outside this state). -/
def OCRClient.stop (s : OCRClientState) : OCRClientState :=
  { s with running := false }

/-- `ocr_process.py` — `OCRClient.toggle_pause`: flip `self.paused`. -/
def OCRClient.toggle_pause (s : OCRClientState) : OCRClientState :=
  { s with paused := !s.paused }

/-- `ocr_process.py` — `OCRClient.signal_handler`: unpack the action code
from the `ocr_signal` buffer and branch on the four handled `OCRSignal`
codes; any other code falls off the `if`/`elif` chain. -/
def OCRClient.signal_handler (s : OCRClientState) : OCRClientState :=
  let action_code := Mailbox.read s.ocr_shm
  if action_code = OCRSignal.START_OCR.value then OCRClient.start s
  else if action_code = OCRSignal.STOP_OCR.value then OCRClient.stop s
  else if action_code = OCRSignal.NEW_PICTURE.value then OCRClient.capture_image s
  else if action_code = OCRSignal.PAUSE_OCR.value then OCRClient.toggle_pause s
  else s

/-- C10: the OCR process's handler has no branch for StopOcrNow: whenever the
`ocr_signal` mailbox holds StopOcrNow — or any code outside the four handled
ones — the handler returns with the client state (running, paused, queues)
unchanged, so the emergency stop emitted by the queue-depth feedback path is
silently dropped by its receiver. -/
theorem ocr_handler_drops_stop_now (s : OCRClientState)
    (h : Mailbox.read s.ocr_shm = OCRSignal.STOP_OCR_NOW.value ∨
         (Mailbox.read s.ocr_shm ≠ OCRSignal.START_OCR.value ∧
          Mailbox.read s.ocr_shm ≠ OCRSignal.STOP_OCR.value ∧
          Mailbox.read s.ocr_shm ≠ OCRSignal.NEW_PICTURE.value ∧
          Mailbox.read s.ocr_shm ≠ OCRSignal.PAUSE_OCR.value)) :
    OCRClient.signal_handler s = s := by
  have hne : Mailbox.read s.ocr_shm ≠ OCRSignal.START_OCR.value ∧
      Mailbox.read s.ocr_shm ≠ OCRSignal.STOP_OCR.value ∧
      Mailbox.read s.ocr_shm ≠ OCRSignal.NEW_PICTURE.value ∧
      Mailbox.read s.ocr_shm ≠ OCRSignal.PAUSE_OCR.value := by
    rcases h with h | h
    · rw [h]
      refine ⟨?_, ?_, ?_, ?_⟩ <;> decide
    · exact h
  simp only [OCRClient.signal_handler,
    if_neg hne.1, if_neg hne.2.1, if_neg hne.2.2.1, if_neg hne.2.2.2]

/-- A concrete OCR-client state whose `ocr_signal` mailbox holds the
StopOcrNow code. -/
def demoOCRClient : OCRClientState :=
  { ocr_shm := Mailbox.write OCRSignal.STOP_OCR_NOW.value,
    running := true, paused := false,
    image_queue := [], audio_queue := [], timestamp := "20251012_120000" }

/-- Witness for C10 at the concrete state `demoOCRClient`. -/
theorem ocr_handler_drops_stop_now_witness :
    Mailbox.read demoOCRClient.ocr_shm = OCRSignal.STOP_OCR_NOW.value ∧
    OCRClient.signal_handler demoOCRClient = demoOCRClient :=
  ⟨rfl, ocr_handler_drops_stop_now demoOCRClient (Or.inl rfl)⟩

end EyeWear
